import Mathlib

/-!
Shallow embedding of `src/discord_presence.py` (privacy-aware Discord
presence labeler) and proofs about its label-derivation pipeline,
mask-term configuration, and retry/teardown logic.

Strings are modelled as `List Char` (Python code points); the Python
operations used by the source (`str.lower`, `str.strip`, `re.sub("\s+"," ",·)`,
slicing, `in` substring test, `split(",")`, `sorted(set(...))`) are embedded
below.  All inputs in scope are ASCII, where these models coincide with
Python's Unicode-aware versions.
-/

namespace DiscordPresence

/-- Python whitespace characters (ASCII fragment, which covers every input
considered here): the set matched by `str.strip()` and by the regex `\s`. -/
def isSpace (c : Char) : Bool :=
  c = ' ' || c = '\t' || c = '\n' || c = '\r' || c = '\x0b' || c = '\x0c'

/-- `str.lower()` on an ASCII character. -/
def lowerChar (c : Char) : Char :=
  if 65 ≤ c.toNat && c.toNat ≤ 90 then Char.ofNat (c.toNat + 32) else c

/-- `str.lower()`. -/
def lowerStr (s : List Char) : List Char := s.map lowerChar

/-- `needle` occurs at the front of `hay`. -/
def startsWith : List Char → List Char → Bool
  | [], _ => true
  | _ :: _, [] => false
  | a :: as, b :: bs => a == b && startsWith as bs

/-- Python's `needle in hay` substring test. -/
def containsSub (needle : List Char) : List Char → Bool
  | [] => needle.isEmpty
  | c :: t => startsWith needle (c :: t) || containsSub needle t

/-- `str.lstrip()`. -/
def lstrip (s : List Char) : List Char := s.dropWhile isSpace

/-- `str.rstrip()`. -/
def rstrip (s : List Char) : List Char := (s.reverse.dropWhile isSpace).reverse

/-- `str.strip()`. -/
def strip (s : List Char) : List Char := rstrip (lstrip s)

/-- `re.sub(r"\s+", " ", t)`: every maximal whitespace run becomes one space. -/
def collapseWs : List Char → List Char
  | [] => []
  | [c] => if isSpace c then [' '] else [c]
  | a :: b :: t =>
    if isSpace a && isSpace b then collapseWs (b :: t)
    else (if isSpace a then ' ' else a) :: collapseWs (b :: t)

/-- `SAFE_MASK_MESSAGE` from the source. -/
def SAFE_MASK_MESSAGE : List Char := "Working — details hidden".data

/-- `SAFE_IDLE_MESSAGE` from the source. -/
def SAFE_IDLE_MESSAGE : List Char := "Idle".data

/-- `DEFAULT_SENSITIVE_TERMS` from the source, in source order. -/
def DEFAULT_SENSITIVE_TERMS : List (List Char) :=
  ["companyname".data, "confidential".data, "privacy".data, "secret".data,
   "nces".data, "budget".data, "invoice".data, "payroll".data,
   "student".data, "medical".data, "legal".data, "hr".data,
   "finance".data, "salary".data, "contract".data, "nda".data]

/-- `BROWSERS` from the source. -/
def BROWSERS : List (List Char) :=
  ["chrome.exe".data, "msedge.exe".data, "firefox.exe".data,
   "brave.exe".data, "opera.exe".data, "vivaldi.exe".data]

/-- Python's `exe in BROWSERS` membership test. -/
def browsersContains (exe : List Char) : Bool :=
  BROWSERS.any (fun b => b == exe)

/-- `APP_MAP` from the source. -/
def APP_MAP : List (List Char × List Char) :=
  [("excel.exe".data, "Working in Excel".data),
   ("winword.exe".data, "Working in Word".data),
   ("powerpnt.exe".data, "Working in PowerPoint".data),
   ("notepad.exe".data, "Editing Text".data),
   ("code.exe".data, "Coding in VS Code".data),
   ("pycharm64.exe".data, "Coding in PyCharm".data)]

/-- Python's `APP_MAP[exe]` lookup guarded by `exe in APP_MAP`. -/
def appMapLookup (exe : List Char) : Option (List Char) :=
  (APP_MAP.find? (fun p => p.1 == exe)).map (fun p => p.2)

/-- `title_has_sensitive_term`, with the module-level `SENSITIVE_TERMS`
global made an explicit parameter. -/
def title_has_sensitive_term (terms : List (List Char)) (title : List Char) : Bool :=
  let low := lowerStr title
  terms.any (fun t => !t.isEmpty && containsSub t low)

/-- `sanitize_title_to_short_label(title, max_len)`: strip, collapse
whitespace, truncate to `max_len - 1` plus an ellipsis glyph when longer
than `max_len`, and fall back to the idle constant when empty. -/
def sanitize_title_to_short_label (title : List Char) (maxLen : Nat) : List Char :=
  let t := collapseWs (strip title)
  let t2 := if maxLen < t.length then rstrip (t.take (maxLen - 1)) ++ ['…'] else t
  if t2.isEmpty then SAFE_IDLE_MESSAGE else t2

/-- `[A-Za-z0-9]` (the regex class `[a-z0-9]` under `re.IGNORECASE`). -/
def digitOrAlpha (c : Char) : Bool :=
  (65 ≤ c.toNat && c.toNat ≤ 90) || (97 ≤ c.toNat && c.toNat ≤ 122) ||
  (48 ≤ c.toNat && c.toNat ≤ 57)

/-- `[A-Za-z]` (the regex class `[a-z]` under `re.IGNORECASE`). -/
def alphaChar (c : Char) : Bool :=
  (65 ≤ c.toNat && c.toNat ≤ 90) || (97 ≤ c.toNat && c.toNat ≤ 122)

/-- `[A-Za-z0-9-]` (the regex class `[a-z0-9-]` under `re.IGNORECASE`). -/
def labelChar (c : Char) : Bool := digitOrAlpha c || c = '-'

/-- Candidate lengths, in Python's greedy backtracking order, for one DNS
label `[a-z0-9](?:[a-z0-9-]{0,61}[a-z0-9])?` of `DOMAIN_RE` matched at the
front of `s`: inner `{0,61}` longest first, then the empty optional group. -/
def labelCands (s : List Char) : List Nat :=
  match s with
  | [] => []
  | c :: rest =>
    if digitOrAlpha c then
      ((List.range 62).reverse.filterMap (fun m =>
        if (rest.take m).length = m && (rest.take m).all labelChar then
          match rest.drop m with
          | d :: _ => if digitOrAlpha d then some (m + 2) else none
          | [] => none
        else none)) ++ [1]
    else []

/-- Candidate lengths, greedy order, for one `label + '.'` group of
`DOMAIN_RE` matched at the front of `s`. -/
def labelDotCands (s : List Char) : List Nat :=
  (labelCands s).filterMap (fun k =>
    match s.drop k with
    | '.' :: _ => some (k + 1)
    | _ => none)

/-- Length taken by the greedy TLD part `[a-z]{2,}` of `DOMAIN_RE` at the
front of `s` (nothing mandatory follows it, so greedy means maximal). -/
def tldLen (s : List Char) : Option Nat :=
  let n := (s.takeWhile alphaChar).length
  if 2 ≤ n then some n else none

/-- Length of the host group `(?:label\.)+[a-z]{2,}` of `DOMAIN_RE` matched
at the front of `s`, exploring repetitions in Python's greedy backtracking
order: after each `label.` group, first try further groups, then the TLD.
`fuel` only bounds recursion; `s.length + 1` is always enough. -/
def hostFrom : Nat → List Char → Option Nat
  | 0, _ => none
  | Nat.succ fuel, s =>
    (labelDotCands s).findSome? (fun k =>
      match hostFrom fuel (s.drop k) with
      | some m => some (k + m)
      | none => (tldLen (s.drop k)).map (fun m => k + m))

/-- `DOMAIN_RE.search(title)` returning `m.group("host")`: scan start
positions left to right, first position with a match wins.  The optional
port group `(?::\d+)?` never affects the host group or matchability. -/
def searchFrom : List Char → Option (List Char)
  | [] => none
  | c :: t =>
    match hostFrom (t.length + 2) (c :: t) with
    | some k => some ((c :: t).take k)
    | none => searchFrom t

/-- `DOMAIN_RE.search` on a title, as used by `derive_label`. -/
def domainSearch (title : List Char) : Option (List Char) := searchFrom title

/-- `derive_label(title, exe)`, with the `SENSITIVE_TERMS` global made an
explicit parameter: mask first for all apps, then idle on falsy (empty)
title, then the browser host/fallback path, then the static app map, then
the generic sanitized title. -/
def derive_label (terms : List (List Char)) (title exe : List Char) :
    List Char × Option (List Char) :=
  if title_has_sensitive_term terms title then (SAFE_MASK_MESSAGE, none)
  else if title.isEmpty then (SAFE_IDLE_MESSAGE, none)
  else if browsersContains exe then
    match domainSearch title with
    | some host => ("Browsing ".data ++ lowerStr host, none)
    | none => ("Browsing ".data ++ sanitize_title_to_short_label title 40, none)
  else
    match appMapLookup exe with
    | some lbl => (lbl, none)
    | none => (sanitize_title_to_short_label title 40, none)

/-- `getenv_str(name)` with no default, applied to the raw environment
value: a present value is kept only when it is non-blank after stripping. -/
def getenv_str (v : Option (List Char)) : Option (List Char) :=
  match v with
  | none => none
  | some s => if (strip s).isEmpty then none else some s

/-- Python's `s.split(",")` (note `"".split(",") = [""]`). -/
def splitComma : List Char → List (List Char)
  | [] => [[]]
  | c :: t =>
    if c = ',' then [] :: splitComma t
    else
      match splitComma t with
      | h :: r => (c :: h) :: r
      | [] => [[c]]

/-- Python's `<` on strings: lexicographic by code point. -/
def lexLt : List Char → List Char → Bool
  | [], [] => false
  | [], _ :: _ => true
  | _ :: _, [] => false
  | a :: as, b :: bs => a.toNat < b.toNat || (a == b && lexLt as bs)

/-- Insert into a strictly increasing list, skipping duplicates. -/
def insertUnique (x : List Char) : List (List Char) → List (List Char)
  | [] => [x]
  | y :: r =>
    if x == y then y :: r
    else if lexLt x y then x :: y :: r
    else y :: insertUnique x r

/-- Python's `sorted(set(l))` for a list of strings. -/
def sortedUnique (l : List (List Char)) : List (List Char) :=
  l.foldl (fun acc x => insertUnique x acc) []

/-- `parse_mask_terms()`, with the raw `MASK_TERMS` environment value made
an explicit parameter: when the env value survives `getenv_str`, split on
commas, strip each entry, drop empties and lowercase; otherwise take the
defaults; finally lowercase again, deduplicate and sort. -/
def parse_mask_terms (raw : Option (List Char)) : List (List Char) :=
  let env := getenv_str raw
  let terms : List (List Char) :=
    match env with
    | some e =>
      (splitComma e).filterMap (fun t =>
        let t2 := strip t
        if t2.isEmpty then none else some (lowerStr t2))
    | none => DEFAULT_SENSITIVE_TERMS
  sortedUnique (terms.map lowerStr)

/-!
`PresenceClient`: the mutable session.  `rpc` models `_rpc` (the id is a
construction counter, so a fresh `Presence(...)` object is visibly distinct
from any earlier one), `connected` models `_connected`, and `mkCount`
counts `Presence(...)` constructions.
-/

structure SessionState where
  rpc : Option Nat
  connected : Bool
  mkCount : Nat
deriving DecidableEq

/-- `PresenceClient.connect` on its success path: no-op when already
connected with a live channel object, otherwise construct a fresh
`Presence` and connect it. -/
def connect (st : SessionState) : SessionState :=
  if st.connected && st.rpc.isSome then st
  else ⟨some st.mkCount, true, st.mkCount + 1⟩

/-- `PresenceClient.close`: `try: clear(); close() finally: _rpc = None;
_connected = False`.  `teardownFails` says whether `clear()`/`close()` on
the live channel raises.  Returns the state after the `finally` block and
whether an exception propagates out of `close` (a `try/finally` with no
`except` re-raises after running the `finally` block). -/
def close (st : SessionState) (teardownFails : Bool) : SessionState × Bool :=
  (⟨none, false, st.mkCount⟩, st.rpc.isSome && teardownFails)

/-- Failure categories of one channel operation, as classified by
`safe_update`'s handlers: `pipeErr` covers `InvalidPipe` and
`ConnectionRefusedError`, `credErr` is `InvalidID`, `otherErr` is any
other `Exception`. -/
inductive Outcome
  | ok
  | pipeErr
  | credErr
  | otherErr
deriving DecidableEq

/-- How a `safe_update` run ends. -/
inductive RunOut
  | success
  | raised (e : Outcome)
  | fuelOut
deriving DecidableEq

/-- Observable trace of a `safe_update` run: how it ended, how many
`self.update(...)` attempts and explicit reconnect `self.connect()`
attempts were made, and the argument of each `time.sleep`. -/
structure Run where
  out : RunOut
  updateCalls : Nat
  connectCalls : Nat
  sleeps : List ℚ
deriving DecidableEq

/-- Pop the scripted outcome of the next channel operation (an exhausted
script means the channel succeeds from then on). -/
def scriptHead : List Outcome → Outcome × List Outcome
  | [] => (Outcome.ok, [])
  | o :: r => (o, r)

/-- `max_backoff` from the source.  Backoff floats are modelled as exact
rationals; every value the loop can reach (powers of 2, `3^k/2^k`, and the
cap 16) is exactly representable as a float, so this is faithful. -/
def max_backoff : ℚ := 16

/-- `PresenceClient.safe_update` over a scripted channel: each
`self.update(...)` call and each reconnect `self.connect()` call consumes
one script entry.  On `pipeErr` from update: sleep, double the backoff
(capped), attempt reconnect — a reconnect failure of kind
`credErr`/`pipeErr` is caught and the loop continues, while `otherErr`
from reconnect escapes the loop uncaught; on `credErr` from update:
re-raise at once; on `otherErr` from update: sleep and retry with 1.5×
backoff (capped).  `fuel` bounds the unbounded source loop. -/
def safe_update : Nat → List Outcome → ℚ → Run
  | 0, _, _ => ⟨RunOut.fuelOut, 0, 0, []⟩
  | Nat.succ fuel, script, backoff =>
    let p := scriptHead script
    match p.1 with
    | Outcome.ok => ⟨RunOut.success, 1, 0, []⟩
    | Outcome.credErr => ⟨RunOut.raised Outcome.credErr, 1, 0, []⟩
    | Outcome.pipeErr =>
      let b2 := min max_backoff (backoff * 2)
      let q := scriptHead p.2
      match q.1 with
      | Outcome.otherErr => ⟨RunOut.raised Outcome.otherErr, 1, 1, [backoff]⟩
      | _ =>
        let r := safe_update fuel q.2 b2
        ⟨r.out, r.updateCalls + 1, r.connectCalls + 1, backoff :: r.sleeps⟩
    | Outcome.otherErr =>
      let b2 := min max_backoff (backoff * (3 / 2))
      let r := safe_update fuel p.2 b2
      ⟨r.out, r.updateCalls + 1, r.connectCalls, backoff :: r.sleeps⟩

/-! Helper lemmas shared by the claim theorems. -/

theorem sensitive_term_nil (terms : List (List Char)) :
    title_has_sensitive_term terms [] = false := by
  simp only [title_has_sensitive_term, lowerStr, List.map_nil]
  rw [List.any_eq_false]
  intro t _
  cases t <;> simp [containsSub]

theorem strip_all_space (l : List Char) (h : l.all isSpace = true) : strip l = [] := by
  have h1 : lstrip l = [] := by
    unfold lstrip
    rw [List.dropWhile_eq_nil_iff]
    intro x hx
    exact (List.all_eq_true.mp h) x hx
  simp [strip, h1, rstrip]

theorem rstrip_length_le (l : List Char) : (rstrip l).length ≤ l.length := by
  unfold rstrip
  calc ((l.reverse.dropWhile isSpace).reverse).length
      = (l.reverse.dropWhile isSpace).length := List.length_reverse _
    _ ≤ l.reverse.length := (List.dropWhile_sublist _).length_le
    _ = l.length := List.length_reverse _

theorem sanitize_length_le (title : List Char) :
    (sanitize_title_to_short_label title 40).length ≤ 40 := by
  simp only [sanitize_title_to_short_label]
  split
  · split
    · decide
    · have h1 := rstrip_length_le ((collapseWs (strip title)).take (40 - 1))
      have h2 : ((collapseWs (strip title)).take (40 - 1)).length ≤ 39 := by
        rw [List.length_take]
        omega
      simp only [List.length_append, List.length_cons, List.length_nil]
      omega
  · split
    · decide
    · omega

theorem isEmpty_false_of_ne_nil (l : List Char) (h : l ≠ []) : l.isEmpty = false := by
  cases l with
  | nil => exact absurd rfl h
  | cons a t => rfl

/-! The claim theorems. -/

/-- Claim C1 (confirmed): for every title containing a configured sensitive
term and every executable name, `derive_label` returns the fixed masked
constant with no image hint — the masking check runs before every other
branch, including the browser and app-map branches. -/
theorem C1_mask_always_wins (terms : List (List Char)) (title exe : List Char)
    (h : title_has_sensitive_term terms title = true) :
    derive_label terms title exe = (SAFE_MASK_MESSAGE, none) := by
  simp [derive_label, h]

/-- Witness for C1 at a concrete masked title and a browser executable. -/
theorem C1_mask_always_wins_witness :
    title_has_sensitive_term ["secret".data] "My SECRET plan".data = true ∧
    derive_label ["secret".data] "My SECRET plan".data "chrome.exe".data =
      (SAFE_MASK_MESSAGE, none) :=
  ⟨by decide, C1_mask_always_wins _ _ _ (by decide)⟩

/-- Claim C2 (counterexample): a whitespace-only title is NOT treated as
empty — `derive_label` tests Python falsiness (`if not title`), which a
non-empty whitespace string fails, so with the default sensitive terms and
the mapped executable `excel.exe` a whitespace-only title yields the mapped
label, not the idle constant. -/
theorem C2_whitespace_counterexample :
    derive_label (parse_mask_terms none) "   ".data "excel.exe".data =
      ("Working in Excel".data, none) ∧
    ("Working in Excel".data, (none : Option (List Char))) ≠
      (SAFE_IDLE_MESSAGE, none) := by
  constructor <;> decide

/-- Claim C2 (amended): for every empty title `derive_label` returns the
idle constant for every executable name; a whitespace-only non-empty title
falls through step 2 and yields the idle constant only on the generic
fallback path (executable neither a browser nor mapped), where
sanitization collapses it to the idle constant. -/
theorem C2_empty_idle_amended :
    (∀ (terms : List (List Char)) (exe : List Char),
      derive_label terms [] exe = (SAFE_IDLE_MESSAGE, none)) ∧
    (∀ (terms : List (List Char)) (title exe : List Char),
      title.all isSpace = true →
      title_has_sensitive_term terms title = false →
      browsersContains exe = false →
      appMapLookup exe = none →
      derive_label terms title exe = (SAFE_IDLE_MESSAGE, none)) := by
  constructor
  · intro terms exe
    simp [derive_label, sensitive_term_nil]
  · intro terms title exe hws hm hb ha
    by_cases hnil : title = []
    · subst hnil
      simp [derive_label, sensitive_term_nil]
    · have hie := isEmpty_false_of_ne_nil title hnil
      have hst : strip title = [] := strip_all_space title hws
      simp [derive_label, hm, hie, hb, ha, sanitize_title_to_short_label,
        hst, collapseWs]

/-- Witness for C2 (amended) at an empty title and at a whitespace-only
title with an unknown executable. -/
theorem C2_empty_idle_amended_witness :
    derive_label [] [] "chrome.exe".data = (SAFE_IDLE_MESSAGE, none) ∧
    derive_label [] "   ".data "unknown.exe".data = (SAFE_IDLE_MESSAGE, none) :=
  ⟨C2_empty_idle_amended.1 [] "chrome.exe".data,
   C2_empty_idle_amended.2 [] "   ".data "unknown.exe".data
     (by decide) (by decide) (by decide) (by decide)⟩

/-- Claim C3 (counterexample): the browser fallback prepends `"Browsing "`
to a string that is itself capped at 40 characters, so the total can reach
49 — a 35-character title with no hostname yields a 44-character label,
exceeding the claimed 40-character bound. -/
theorem C3_browser_fallback_counterexample :
    derive_label [] (List.replicate 35 'x') "chrome.exe".data =
      ("Browsing ".data ++ List.replicate 35 'x', none) ∧
    40 < (derive_label [] (List.replicate 35 'x') "chrome.exe".data).1.length := by
  constructor <;> decide

/-- Claim C3 (amended): for a browser executable with a non-empty unmasked
title and no extractable hostname, `derive_label` returns `"Browsing "`
followed by the sanitized, truncated title; the sanitized part is at most
40 characters (ellipsis included), so the whole label is at most
49 = 40 + 9 characters, not 40. -/
theorem C3_browser_fallback_amended (terms : List (List Char))
    (title exe : List Char)
    (hm : title_has_sensitive_term terms title = false)
    (hne : title ≠ [])
    (hb : browsersContains exe = true)
    (hd : domainSearch title = none) :
    derive_label terms title exe =
      ("Browsing ".data ++ sanitize_title_to_short_label title 40, none) ∧
    (derive_label terms title exe).1.length ≤ 49 := by
  have hie := isEmpty_false_of_ne_nil title hne
  have h1 : derive_label terms title exe =
      ("Browsing ".data ++ sanitize_title_to_short_label title 40, none) := by
    simp [derive_label, hm, hie, hb, hd]
  refine ⟨h1, ?_⟩
  rw [h1]
  simp only [List.length_append, List.length_cons, List.length_nil]
  have h2 := sanitize_length_le title
  omega

/-- Witness for C3 (amended) at a concrete hostless browser title. -/
theorem C3_browser_fallback_amended_witness :
    derive_label [] "hello world".data "firefox.exe".data =
      ("Browsing ".data ++ sanitize_title_to_short_label "hello world".data 40, none) ∧
    (derive_label [] "hello world".data "firefox.exe".data).1.length ≤ 49 :=
  C3_browser_fallback_amended [] "hello world".data "firefox.exe".data
    (by decide) (by decide) (by decide) (by decide)

/-- Claim C4 (counterexample): `MASK_TERMS=",,,"` is non-blank, so
`getenv_str` keeps it, every comma-separated entry strips to empty and is
dropped, and `parse_mask_terms` returns the EMPTY term tuple — the default
set is not substituted and the configured set can be empty. -/
theorem C4_mask_terms_counterexample :
    parse_mask_terms (some ",,,".data) = [] := by decide

/-- Claim C4 (amended): splitting on commas, trimming, lowercasing,
deduplicating, sorting and dropping empty entries hold, and the built-in
default set (16 terms) is substituted exactly when the raw `MASK_TERMS`
value is absent, empty, or whitespace-only; a non-blank value containing
only commas and whitespace (such as `",,,"`) instead yields an empty
configured set. -/
theorem C4_mask_terms_amended :
    (∀ s : List Char, strip s = [] →
      parse_mask_terms (some s) = parse_mask_terms none) ∧
    parse_mask_terms none =
      ["budget".data, "companyname".data, "confidential".data,
       "contract".data, "finance".data, "hr".data, "invoice".data,
       "legal".data, "medical".data, "nces".data, "nda".data,
       "payroll".data, "privacy".data, "salary".data, "secret".data,
       "student".data] ∧
    parse_mask_terms (some " A ,b,, C".data) = ["a".data, "b".data, "c".data] ∧
    parse_mask_terms (some ",,,".data) = [] := by
  refine ⟨?_, by decide, by decide, by decide⟩
  intro s hs
  simp [parse_mask_terms, getenv_str, hs]

/-- Witness for C4 (amended) at a concrete whitespace-only value. -/
theorem C4_mask_terms_amended_witness :
    strip "  ".data = [] ∧
    parse_mask_terms (some "  ".data) = parse_mask_terms none :=
  ⟨by decide, C4_mask_terms_amended.1 "  ".data (by decide)⟩

/-- Claim C5 (counterexample): an invalid-credential failure during the
reconnect attempt inside the pipe-failure handler is caught
(`except (InvalidID, InvalidPipe, ConnectionRefusedError): continue`), so
the loop keeps going: with script pipe-failure, then credential-failure on
reconnect, then success, `safe_update` makes a second update attempt and
returns successfully instead of re-raising. -/
theorem C5_cred_retry_counterexample :
    safe_update 10 [Outcome.pipeErr, Outcome.credErr, Outcome.ok] 1 =
      ⟨RunOut.success, 2, 1, [1]⟩ := by
  simp [safe_update, scriptHead, max_backoff]

/-- Claim C5 (amended): an invalid-credential failure raised by the update
call itself is re-raised immediately — one update attempt, no reconnect,
no sleep; but an invalid-credential failure from the reconnect attempt
inside the pipe-failure handler is swallowed and the loop continues with
the doubled (capped) backoff. -/
theorem C5_cred_raise_amended :
    (∀ (fuel : Nat) (script : List Outcome) (b : ℚ),
      safe_update (fuel + 1) (Outcome.credErr :: script) b =
        ⟨RunOut.raised Outcome.credErr, 1, 0, []⟩) ∧
    (∀ (fuel : Nat) (script : List Outcome) (b : ℚ),
      safe_update (fuel + 2) (Outcome.pipeErr :: Outcome.credErr :: script) b =
        ⟨(safe_update (fuel + 1) script (min max_backoff (b * 2))).out,
         (safe_update (fuel + 1) script (min max_backoff (b * 2))).updateCalls + 1,
         (safe_update (fuel + 1) script (min max_backoff (b * 2))).connectCalls + 1,
         b :: (safe_update (fuel + 1) script (min max_backoff (b * 2))).sleeps⟩) := by
  constructor
  · intro fuel script b
    simp [safe_update, scriptHead]
  · intro fuel script b
    simp [safe_update, scriptHead]

/-- Claim C6 (confirmed): with pipe failures on exactly the first two
update attempts (reconnects succeeding) and success on the third,
`safe_update` returns successfully after exactly 3 update attempts
(with 2 intervening reconnects) and sleeps exactly 1 then 2 time-units —
the backoff doubling from 1 under the cap of 16. -/
theorem C6_pipe_twice_then_ok :
    safe_update 10 [Outcome.pipeErr, Outcome.ok, Outcome.pipeErr,
      Outcome.ok, Outcome.ok] 1 = ⟨RunOut.success, 3, 2, [1, 2]⟩ := by
  simp [safe_update, scriptHead, max_backoff]
  norm_num [min_def]

/-- Claim C7 (counterexample): `close` is a `try/finally` with no `except`,
so a failure raised by the channel's `clear()`/`close()` propagates out of
`close` to the caller (where `main` swallows it) — here a connected
session whose teardown fails makes `close` raise. -/
theorem C7_close_raises_counterexample :
    (close ⟨some 0, true, 1⟩ true).2 = true := by decide

/-- Claim C7 (amended): `close` never leaves stale state — the `finally`
block resets `_rpc` and `_connected` whether or not teardown fails, and a
subsequent `connect` validly reopens the channel; but a teardown failure
is re-raised out of `close` (it raises exactly when a channel object
exists and its `clear()`/`close()` fails); the swallowing happens at the
call site in `main`, not inside `close`. -/
theorem C7_close_amended (st : SessionState) (f : Bool) :
    (close st f).1.rpc = none ∧
    (close st f).1.connected = false ∧
    (close st f).2 = (st.rpc.isSome && f) ∧
    (connect (close st f).1).connected = true := by
  simp [close, connect]

/-- Claim C8 (confirmed): `MASK_TERMS="Foo, BAR"` parses to exactly the
sorted, deduplicated, lowercase tuple `("bar", "foo")`, and the matcher
accepts the title `"this has foo in it"`. -/
theorem C8_mask_terms_example :
    parse_mask_terms (some "Foo, BAR".data) = ["bar".data, "foo".data] ∧
    title_has_sensitive_term (parse_mask_terms (some "Foo, BAR".data))
      "this has foo in it".data = true := by
  constructor <;> decide

/-- Claim C9 (confirmed): for a mapped, non-browser executable and a
non-empty unmasked title, `derive_label` returns exactly the mapped label
verbatim with no image hint; "no title data leaks" is formalized as
independence: every other qualifying title produces the same output. -/
theorem C9_mapped_app (terms : List (List Char)) (title exe lbl : List Char)
    (hm : title_has_sensitive_term terms title = false)
    (hne : title ≠ [])
    (hb : browsersContains exe = false)
    (ha : appMapLookup exe = some lbl) :
    derive_label terms title exe = (lbl, none) ∧
    ∀ title2 : List Char, title_has_sensitive_term terms title2 = false →
      title2 ≠ [] → derive_label terms title2 exe = (lbl, none) := by
  have key : ∀ t : List Char, title_has_sensitive_term terms t = false →
      t ≠ [] → derive_label terms t exe = (lbl, none) := by
    intro t h1 h2
    have hie := isEmpty_false_of_ne_nil t h2
    simp [derive_label, h1, hie, hb, ha]
  exact ⟨key title hm hne, key⟩

/-- Witness for C9 at `excel.exe` with two different titles. -/
theorem C9_mapped_app_witness :
    derive_label [] "notes".data "excel.exe".data =
      ("Working in Excel".data, none) ∧
    derive_label [] "todo list".data "excel.exe".data =
      ("Working in Excel".data, none) :=
  ⟨(C9_mapped_app [] "notes".data "excel.exe".data "Working in Excel".data
      (by decide) (by decide) (by decide) (by decide)).1,
   (C9_mapped_app [] "notes".data "excel.exe".data "Working in Excel".data
      (by decide) (by decide) (by decide) (by decide)).2
     "todo list".data (by decide) (by decide)⟩

/-- Claim C10 (confirmed): the `finally` block of `close` unconditionally
resets `_rpc` to `None` and `_connected` to `False` before control leaves
`close`, whether or not teardown raised, and a subsequent `connect`
constructs a fresh channel object (the construction counter advances)
rather than reusing the old one. -/
theorem C10_close_resets_fields (st : SessionState) (f : Bool) :
    (close st f).1.rpc = none ∧
    (close st f).1.connected = false ∧
    connect (close st f).1 = ⟨some st.mkCount, true, st.mkCount + 1⟩ := by
  simp [close, connect]

end DiscordPresence
